import Mathlib

/-!
# SatLink link-budget engine: a shallow embedding

This file embeds the SatLink link-budget calculation engine
(`satellite_new.py`, `models/satellite_components.py`,
`models/simple_reception.py`) in Lean 4 and proves properties of it.

Conventions of the embedding:

* Machine floats are modelled as rationals (`ℚ`).  Transcendental
  primitives (`cos`, `sin`, `arctan`, `sqrt`, `log10`, natural `log`,
  power `x ** y`, `π`) are uninterpreted functions collected in a
  `MathPrims` record; theorems assume only the algebraic facts about
  them that they need.  Python's trigonometric idiom
  `np.cos(np.radians(x))` is modelled by the composite primitive
  `cosDeg x`, and `np.degrees(np.arctan(x))` by `arctanDeg x`.
* The mutable `Satellite` session object becomes explicit state
  passing: every getter takes and returns a `SatState`.  The lazily
  cached attributes (initialised to `None` in `__init__`) are `Option ℚ`
  fields, `None` being `none`.
* The external `itur.atmospheric_attenuation_slant_path` model is a
  parameter `atm : ℚ → AtmOut` of the session configuration (the
  session's location, frequency, elevation and antenna diameter are
  fixed, so only the exceedance probability `p` varies).  The state
  carries a counter `atmCalls` of its invocations.
* `sys.exit(...)` and Python runtime errors (`TypeError`,
  `ValueError`) are modelled with `Except String`.
* `np.random.choice` draws in the availability solver are modelled by
  oracle streams `randLo, randHi : ℕ → ℚ` indexed by a draw counter.
-/

/-- Uninterpreted numerical primitives standing for the float
transcendental functions used by the Python source. `cosDeg x` stands
for `np.cos(np.radians(x))`, `sinDeg` likewise, `arctanDeg x` for
`np.degrees(np.arctan(x))`, `rpow x y` for `x ** y` on floats, `log10`
for `np.log10`, `log` for `np.log`, and `pi` for `np.pi`. -/
structure MathPrims where
  cosDeg : ℚ → ℚ
  sinDeg : ℚ → ℚ
  arctanDeg : ℚ → ℚ
  sqrt : ℚ → ℚ
  log10 : ℚ → ℚ
  log : ℚ → ℚ
  rpow : ℚ → ℚ → ℚ
  pi : ℚ

/-- `models/satellite_components.py`, class `SatellitePosition`.
The Python object stores the longitude both in degrees (`sat_long`) and
radians (`sat_long_rad`); the embedding keeps the degree value, the
radian copy being recovered inside the composite trigonometric
primitives. -/
structure SatellitePosition where
  sat_long : ℚ
  sat_lat : ℚ
  h_sat : ℚ
deriving DecidableEq

/-- `models/satellite_components.py`, class `Transponder`.
`b_transp` is `Option` because Python allows `None` there (the
`calculate_eirp` guard checks for `None` explicitly). -/
structure Transponder where
  freq : ℚ
  eirp_max : ℚ
  b_transp : Option ℚ
  back_off : ℚ
  contorno : ℚ
deriving DecidableEq

/-- `models/satellite_components.py`, class `Carrier`: configuration
fields plus the lazily cached derived parameters (`symbol_rate`,
`bitrate`, `snr_threshold`), all initialised to `None`. -/
structure Carrier where
  modulation : String
  fec : String
  roll_off : Option ℚ
  b_util : Option ℚ
  symbol_rate : Option ℚ
  bitrate : Option ℚ
  snr_threshold : Option ℚ
deriving DecidableEq

/-- The configuration-only part of a `Carrier` (everything except the
lazy caches). -/
def Carrier.config (c : Carrier) : String × String × Option ℚ × Option ℚ :=
  (c.modulation, c.fec, c.roll_off, c.b_util)

/-- `models/satellite_components.py`, function `calculate_eirp`.
Faithful to the source, including the in-place normalisation of a
`None`/`0` bandwidth to `36` on the component objects themselves: the
returned `Transponder` and `Carrier` are the (possibly mutated)
arguments.  The result triple is `(eirp, transponder, carrier)`. -/
def calculate_eirp (M : MathPrims) (tr : Transponder) (car : Carrier) :
    ℚ × Transponder × Carrier :=
  let tr' := if tr.b_transp = none ∨ tr.b_transp = some 0 then
    { tr with b_transp := some 36 } else tr
  let car' := if car.b_util = none ∨ car.b_util = some 0 then
    { car with b_util := some 36 } else car
  let bt := tr'.b_transp.getD 36
  let bu := car'.b_util.getD 36
  (tr'.eirp_max - tr'.back_off - tr'.contorno + 10 * M.log10 (bu / bt), tr', car')

/-- `GrStat.GroundStation`, as used by `satellite_new.py`: the site
latitude and longitude in degrees.

Modelled from the spec: `GrStat.py` is not under `src/`; the method
`get_earth_radius` used by `Satellite.get_distance` is modelled, per
spec section 4.1 ("`R_earth` is the local Earth radius (a fixed
constant, 6371 km, possibly adjusted per ground station)"), as a
per-station constant field `earth_radius`. -/
structure GroundStation where
  site_lat : ℚ
  site_long : ℚ
  earth_radius : ℚ
deriving DecidableEq

/-- The members of the reception object that `satellite_new.py`
actually reads.  Both receiver variants (the detailed `GrStat.Reception`
and `models/simple_reception.py`'s `SimpleReception`) expose these
duck-typed attributes; their getter methods are deterministic once
`set_parameters(freq, elevation)` has run, so they are embedded as
per-session constant values. -/
structure Reception where
  ant_size : Option ℚ
  coupling_loss : ℚ
  cable_loss : ℚ
  lnb_gain : ℚ
  lnb_noise_temp : ℚ
  depoint_loss : ℚ
  antenna_gain : ℚ
  brightness_temp : ℚ
  ground_temp : ℚ
deriving DecidableEq

/-- `models/simple_reception.py`, class `SimpleReception`: the G/T
value and depointing loss supplied at construction, plus the frequency
and elevation set later by `set_parameters`. -/
structure SimpleReception where
  gt_value : ℚ
  depoint_loss : ℚ
  freq : Option ℚ
  e : Option ℚ
deriving DecidableEq

/-- `SimpleReception.__init__(gt_value, depoint_loss)` with the default
`frequency=None, elevation=None`. -/
def SimpleReception.init (gt depoint : ℚ) : SimpleReception :=
  ⟨gt, depoint, none, none⟩

/-- `SimpleReception.set_parameters(freq, e)`. -/
def SimpleReception.set_parameters (r : SimpleReception) (freq e : ℚ) :
    SimpleReception :=
  { r with freq := some freq, e := some e }

/-- `SimpleReception.get_antenna_gain`: the rough estimate
`gt_value + 20` (assuming a nominal 100 K system temperature). -/
def SimpleReception.get_antenna_gain (r : SimpleReception) : ℚ :=
  r.gt_value + 20

/-- `SimpleReception.get_ground_temp`: piecewise in the elevation
bands; for `e ≥ 90` no band matches and the `else 50` fallback of the
`return` statement applies, as in the source. -/
def SimpleReception.get_ground_temp (r : SimpleReception) : ℚ :=
  match r.e with
  | some e =>
      if e < -10 then 290
      else if e < 0 then 150
      else if e < 10 then 50
      else if e < 90 then 10
      else 50
  | none => 50

/-- `SimpleReception.get_brightness_temp`: the simplified sky
brightness, band-split on whether the frequency is below 10 GHz. -/
def SimpleReception.get_brightness_temp (r : SimpleReception) : ℚ :=
  match r.freq, r.e with
  | some f, some e => if f < 10 then 10 + e * (1/2) else 20 + e * (3/10)
  | _, _ => 15

/-- The duck-typed view of a `SimpleReception` that the `Satellite`
engine reads: `ant_size = None` and all the compatibility loss/LNB
attributes are `0`, exactly as set in `SimpleReception.__init__`. -/
def SimpleReception.toReception (r : SimpleReception) : Reception where
  ant_size := none
  coupling_loss := 0
  cable_loss := 0
  lnb_gain := 0
  lnb_noise_temp := 0
  depoint_loss := r.depoint_loss
  antenna_gain := r.get_antenna_gain
  brightness_temp := r.get_brightness_temp
  ground_temp := r.get_ground_temp

/-- Output of the external atmospheric attenuation model
(`itur.atmospheric_attenuation_slant_path` with
`return_contributions=True`): gaseous, cloud, rain, scintillation and
total atmospheric attenuation, in dB. -/
structure AtmOut where
  a_g : ℚ
  a_c : ℚ
  a_r : ℚ
  a_s : ℚ
  a_t : ℚ
deriving DecidableEq

/-- The immutable per-session data of a `Satellite` object after
`set_grstation` and `set_reception` have run: the scalar copies made in
`__init__` (note `b_util` is copied from the carrier *before*
`calculate_eirp` normalises the component, so it can still be `none` or
`0`), the associated ground station and reception, and the external
collaborators (atmospheric model, free-space attenuation, MODCOD
table, random streams). -/
structure Config where
  M : MathPrims
  sat_long : ℚ
  h_sat : ℚ
  freq : ℚ
  eirp_max : ℚ
  eirp : ℚ
  b_util : Option ℚ
  modulation : String
  fec : String
  gs : GroundStation
  rc : Reception
  atm : ℚ → AtmOut
  fsAtt : ℚ → ℚ → ℚ
  table : String → String → Option ℚ
  randLo : ℕ → ℚ
  randHi : ℕ → ℚ

/-- `Satellite.get_elevation`.  The source computes
`arctan(num / den)` with numpy floats; when `den` is exactly `0`
(satellite directly overhead) numpy evaluates `num/0` to `±inf` (or
`nan` for `0/0`) and `arctan` of it to `±π/2` (or `nan`), so the
embedding returns `±90` degrees (or `0` in the never-taken `0/0`
case) on a zero denominator, matching IEEE semantics. -/
def get_elevation (cfg : Config) : ℚ :=
  let dl := cfg.sat_long - cfg.gs.site_long
  let num := cfg.M.cosDeg dl * cfg.M.cosDeg cfg.gs.site_lat - 15116/100000
  let den := cfg.M.sqrt (1 - (cfg.M.cosDeg dl)^2 * (cfg.M.cosDeg cfg.gs.site_lat)^2)
  if den = 0 then (if 0 < num then 90 else if num < 0 then -90 else 0)
  else cfg.M.arctanDeg (num / den)

/-- `Satellite.get_distance`: law-of-cosines slant range from the
elevation and the ground station's Earth radius. -/
def get_distance (cfg : Config) : ℚ :=
  let e := get_elevation cfg
  let r := cfg.gs.earth_radius
  cfg.M.sqrt ((r + cfg.h_sat)^2 - (r * cfg.M.cosDeg e)^2) - r * cfg.M.sinDeg e

/-- A trivial instantiation of the uninterpreted primitives used by
witnesses: just enough structure to satisfy the hypotheses of the
theorems they instantiate. -/
def primsW : MathPrims where
  cosDeg := fun x => if x = 0 then 1 else 0
  sinDeg := fun _ => 1
  arctanDeg := fun _ => 0
  sqrt := fun x => if x = 0 then 0 else 42157
  log10 := fun _ => 0
  log := fun _ => 0
  rpow := fun _ _ => 1
  pi := 3

/-- A concrete overhead configuration for the witness of claim C6:
GEO satellite at longitude 0, station at (0, 0), altitude 35786 km,
Earth radius 6371 km. -/
def cfgOverhead : Config where
  M := primsW
  sat_long := 0
  h_sat := 35786
  freq := 14
  eirp_max := 1
  eirp := 1
  b_util := some 36
  modulation := "8PSK"
  fec := "2/3"
  gs := ⟨0, 0, 6371⟩
  rc := (SimpleReception.toReception ((SimpleReception.init 20 (1/2)).set_parameters 14 90))
  atm := fun _ => ⟨0, 0, 0, 0, 0⟩
  fsAtt := fun _ _ => 0
  table := fun _ _ => some (49/5)
  randLo := fun _ => 1/1000
  randHi := fun _ => 1

/-- The mutable state of one `Satellite` link session: every lazily
cached attribute set to `None` in `__init__` becomes an `Option ℚ`
field.  `car` is the (mutable, shared) `Carrier` component the session
holds a reference to, and `atmCalls` counts invocations of the
external atmospheric model. -/
structure SatState where
  a_g : Option ℚ
  a_c : Option ℚ
  a_r : Option ℚ
  a_s : Option ℚ
  a_t : Option ℚ
  a_fs : Option ℚ
  a_x : Option ℚ
  a_co : Option ℚ
  a_tot : Option ℚ
  p : Option ℚ
  cross_pol_discrimination : Option ℚ
  power_flux_density : Option ℚ
  antenna_noise_rain : Option ℚ
  total_noise_temp : Option ℚ
  figure_of_merit : Option ℚ
  c_over_n0 : Option ℚ
  snr : Option ℚ
  snr_threshold : Option ℚ
  availability : Option ℚ
  car : Carrier
  atmCalls : ℕ
deriving DecidableEq

/-- The session state right after `Satellite.__init__`: everything
unset. -/
def initSatState (car : Carrier) : SatState where
  a_g := none
  a_c := none
  a_r := none
  a_s := none
  a_t := none
  a_fs := none
  a_x := none
  a_co := none
  a_tot := none
  p := none
  cross_pol_discrimination := none
  power_flux_density := none
  antenna_noise_rain := none
  total_noise_temp := none
  figure_of_merit := none
  c_over_n0 := none
  snr := none
  snr_threshold := none
  availability := none
  car := car
  atmCalls := 0

/-- `Satellite.__init__` (component-based form) followed by
`set_grstation` and `set_reception`: copies the component scalars
(`self.b_util = self.carrier.b_util` etc. run *before*
`calculate_eirp`, so `b_util` is the unnormalised value), computes the
effective EIRP — thereby possibly mutating the shared `Transponder`
and `Carrier` — and returns the session configuration, the fresh
session state, and the post-construction component objects. -/
def Satellite.init (M : MathPrims) (pos : SatellitePosition) (tr : Transponder)
    (car : Carrier) (gs : GroundStation) (rc : Reception)
    (atm : ℚ → AtmOut) (fsAtt : ℚ → ℚ → ℚ) (table : String → String → Option ℚ)
    (randLo randHi : ℕ → ℚ) :
    Config × SatState × SatellitePosition × Transponder × Carrier :=
  let b_util := car.b_util
  let res := calculate_eirp M tr car
  ({ M := M, sat_long := pos.sat_long, h_sat := pos.h_sat, freq := tr.freq,
     eirp_max := tr.eirp_max, eirp := res.1, b_util := b_util,
     modulation := car.modulation, fec := car.fec, gs := gs, rc := rc,
     atm := atm, fsAtt := fsAtt, table := table,
     randLo := randLo, randHi := randHi },
   initSatState res.2.2, pos, res.2.1, res.2.2)

/-- Python's `p if p is not None else self.p` argument selection used
by the probability-dependent getters when delegating to
`get_link_attenuation`. -/
def orSelfP (p? sp : Option ℚ) : Option ℚ :=
  match p? with
  | some _ => p?
  | none => sp

/-- The 8-tuple returned by `Satellite.get_link_attenuation`:
free-space, depointing, gaseous, cloud, rain, scintillation, total
atmospheric and total link attenuation. -/
structure LinkAtt where
  a_fs : ℚ
  a_dep : ℚ
  a_g : ℚ
  a_c : ℚ
  a_r : ℚ
  a_s : ℚ
  a_t : ℚ
  a_tot : ℚ
deriving DecidableEq

/-- `Satellite.get_link_attenuation(p=0.001, method='approx')`.
The ground-station/reception `sys.exit` guards cannot fire because a
`Config` always carries both.  If `self.p is None` the source forces
both `self.p` and the local `p` to `0.001`, ignoring the requested
probability.  On a cache miss it invokes the external model (the
antenna-diameter default for `ant_size = None` and the `method`
argument are absorbed into `cfg.atm`), stores every component, records
the new `p` and erases all downstream caches.  The `getD` defaults on
the cached return and the `p?.getD` in the compute branch are
unreachable filler: in any state the source can produce, a set
`a_tot` comes with all attenuation fields set, and every internal
caller passes a number (or `self.p`, which is forced to `0.001` above
when unset). -/
def get_link_attenuation (cfg : Config) (p? : Option ℚ) (s : SatState) :
    LinkAtt × SatState :=
  let p? := if s.p = none then some (1/1000) else p?
  let s := if s.p = none then { s with p := some (1/1000) } else s
  if s.a_tot ≠ none ∧ p? = s.p then
    (⟨s.a_fs.getD 0, cfg.rc.depoint_loss, s.a_g.getD 0, s.a_c.getD 0,
      s.a_r.getD 0, s.a_s.getD 0, s.a_t.getD 0, s.a_tot.getD 0⟩, s)
  else
    let p := p?.getD (1/1000)
    let a_fs := cfg.fsAtt (get_distance cfg) cfg.freq
    let o := cfg.atm p
    let a_tot := a_fs + cfg.rc.depoint_loss + o.a_t
    (⟨a_fs, cfg.rc.depoint_loss, o.a_g, o.a_c, o.a_r, o.a_s, o.a_t, a_tot⟩,
     { s with
        a_g := some o.a_g, a_c := some o.a_c, a_r := some o.a_r,
        a_s := some o.a_s, a_t := some o.a_t, a_fs := some a_fs,
        a_tot := some a_tot, p := some p,
        power_flux_density := none, antenna_noise_rain := none,
        total_noise_temp := none, figure_of_merit := none,
        c_over_n0 := none, snr := none, cross_pol_discrimination := none,
        atmCalls := s.atmCalls + 1 })

/-- The dynamically typed return value of
`Satellite.get_cross_pol_discrimination`: the cached branch returns the
bare scalar `self.cross_pol_discrimination`, while the compute branch
returns the 3-tuple `(xpd, a_co, a_x)`. -/
inductive XpdRet where
  | cachedScalar (xpd : ℚ)
  | computedTriple (xpd : ℚ) (a_co : ℚ) (a_x : ℚ)
deriving DecidableEq

/-- `np.interp(x, [0.001, 0.01, 0.1, 1], [15, 10, 5, 0])`: piecewise
linear interpolation, clamped outside the table. -/
def interpXpdSigma (x : ℚ) : ℚ :=
  if x ≤ 1/1000 then 15
  else if x ≤ 1/100 then 15 + (x - 1/1000) * ((10 - 15) / (1/100 - 1/1000))
  else if x ≤ 1/10 then 10 + (x - 1/100) * ((5 - 10) / (1/10 - 1/100))
  else if x ≤ 1 then 5 + (x - 1/10) * ((0 - 5) / (1 - 1/10))
  else 0

/-- `Satellite.get_cross_pol_discrimination(p=None)`: the ITU-R style
empirical XPD formula.  `np.cos(4 * np.radians(tau))` is modelled as
`cosDeg (4 * tau)` (the same angle), the below-4-GHz / above-35-GHz
`warnings.warn` calls are non-fatal and have no effect on the state or
value, and `self.p` is read after the `get_link_attenuation` call, so
it is always set there (the `getD` default is unreachable filler). -/
def get_cross_pol_discrimination (cfg : Config) (p? : Option ℚ) (s : SatState) :
    XpdRet × SatState :=
  if s.cross_pol_discrimination ≠ none ∧ p? = s.p then
    (.cachedScalar (s.cross_pol_discrimination.getD 0), s)
  else
    let r := get_link_attenuation cfg (orSelfP p? s.p) s
    let s := r.2
    let a_r := r.1.a_r
    let f := if cfg.freq < 8 then 10 else cfg.freq
    let cf := 20 * cfg.M.log10 f
    let v := if 8 ≤ f ∧ f ≤ 20 then (128/10) * cfg.M.rpow f (19/100) else 226/10
    let ca := v * cfg.M.log10 a_r
    let tau : ℚ := 45
    let c_tau := -10 * cfg.M.log10 (1 - (484/1000) * (1 + cfg.M.cosDeg (4 * tau)))
    let c_teta := -40 * cfg.M.log10 (cfg.M.cosDeg (get_elevation cfg))
    let sigma := interpXpdSigma (s.p.getD (1/1000))
    let c_sigma := (52/10000) * sigma
    let xpd_rain := cf - ca + c_tau + c_teta + c_sigma
    let c_ice := xpd_rain * ((3/10) + (1/10) * cfg.M.log10 (s.p.getD (1/1000))) / 2
    let xpd0 := xpd_rain - c_ice
    let xpd := if cfg.freq < 8 then
        xpd_rain - 20 * cfg.M.log
            (cfg.M.rpow (cfg.freq * (1 + (484/1000) * cfg.M.cosDeg (4 * tau))) (1/2)) /
          (f * cfg.M.rpow (1 - (484/1000) * (1 + cfg.M.cosDeg (4 * tau))) (1/2))
      else xpd0
    let a_x := 10 * cfg.M.log10 (1 + cfg.M.rpow 10 ((1/10) * xpd))
    let a_co := 10 * cfg.M.log10 (1 + cfg.M.rpow 10 (-(1/10) * xpd))
    (.computedTriple xpd a_co a_x,
     { s with
        a_x := some a_x, a_co := some a_co,
        cross_pol_discrimination := some xpd })

/-- `Satellite.get_power_flux_density(p=None)` (dBW/m²).  The
ground-station/reception guards cannot fire. -/
def get_power_flux_density (cfg : Config) (p? : Option ℚ) (s : SatState) :
    ℚ × SatState :=
  if s.power_flux_density ≠ none ∧ p? = s.p then
    (s.power_flux_density.getD 0, s)
  else
    let r := get_link_attenuation cfg (orSelfP p? s.p) s
    let s := r.2
    let phi := cfg.M.rpow 10 ((cfg.eirp - r.1.a_t) / 10) /
      (4 * cfg.M.pi * (get_distance cfg * 1000)^2)
    let v := 10 * cfg.M.log10 phi
    (v, { s with power_flux_density := some v })

/-- `Satellite.get_antenna_noise_rain(p=None)` (K). -/
def get_antenna_noise_rain (cfg : Config) (p? : Option ℚ) (s : SatState) :
    ℚ × SatState :=
  if s.antenna_noise_rain ≠ none ∧ s.p = p? then
    (s.antenna_noise_rain.getD 0, s)
  else
    let r := get_link_attenuation cfg (orSelfP p? s.p) s
    let s := r.2
    let tm : ℚ := 275
    let a_t := cfg.M.rpow 10 (r.1.a_t / 10)
    let v := cfg.rc.brightness_temp / a_t + tm * (1 - 1 / a_t) + cfg.rc.ground_temp
    (v, { s with antenna_noise_rain := some v })

/-- `Satellite.get_total_noise_temp(p=None)` (K).  The frequency /
elevation guard cannot fire (a `Config` always carries them).  Note the
source refreshes the attenuation cache only when `p` is given, and
reads the antenna noise through `self.get_antenna_noise_rain()` with no
argument. -/
def get_total_noise_temp (cfg : Config) (p? : Option ℚ) (s : SatState) :
    ℚ × SatState :=
  if s.total_noise_temp ≠ none ∧ p? = s.p then
    (s.total_noise_temp.getD 0, s)
  else
    let s := match p? with
      | some _ => (get_link_attenuation cfg p? s).2
      | none => s
    let total_loss := cfg.rc.coupling_loss + cfg.rc.cable_loss
    let loss := cfg.M.rpow 10 (total_loss / 10)
    let t_loss := 290 * (loss - 1)
    let r := get_antenna_noise_rain cfg none s
    let v := r.1 + (cfg.rc.lnb_noise_temp +
      t_loss / cfg.M.rpow 10 (cfg.rc.lnb_gain / 10))
    (v, { r.2 with total_noise_temp := some v })

/-- `Satellite.get_figure_of_merit(p=None)` (dB/K, ITU-R BO.790).
Faithful to the source, including its first guard
`if self.figure_of_merit is not None: return self.figure_of_merit`,
which returns the cached value *without comparing `p` to `self.p`*
(the following `elif ... and p == self.p` branch in the source is
unreachable dead code). -/
def get_figure_of_merit (cfg : Config) (p? : Option ℚ) (s : SatState) :
    ℚ × SatState :=
  if s.figure_of_merit ≠ none then (s.figure_of_merit.getD 0, s)
  else
    let s := match p? with
      | some _ => (get_link_attenuation cfg p? s).2
      | none => s
    let alfa := cfg.M.rpow 10 ((cfg.rc.coupling_loss + cfg.rc.cable_loss) / 10)
    let beta := cfg.M.rpow 10 (cfg.rc.depoint_loss / 10)
    let gt := cfg.M.rpow 10 (cfg.rc.antenna_gain / 10)
    let rta := get_antenna_noise_rain cfg none s
    let ta := rta.1
    let t0 : ℚ := 290
    let rtn := get_total_noise_temp cfg none rta.2
    let n := rtn.1 / t0 + 1
    let v := 10 * cfg.M.log10
      ((alfa * beta * gt) / (alfa * ta + (1 - alfa) * t0 + (n - 1) * t0))
    (v, { rtn.2 with figure_of_merit := some v })

/-- `Satellite.get_c_over_n0(p=None)` (dB-Hz).  `sys.exit` on an unset
EIRP becomes an `Except.error`; `228.6 = 1143/5`. -/
def get_c_over_n0 (cfg : Config) (p? : Option ℚ) (s : SatState) :
    Except String (ℚ × SatState) :=
  if cfg.eirp_max = 0 then
    .error ("Please set the satellite\x27s E.I.R.P before running this!!!")
  else if s.c_over_n0 ≠ none ∧ s.p = p? then .ok (s.c_over_n0.getD 0, s)
  else
    let r := get_link_attenuation cfg (orSelfP p? s.p) s
    let rf := get_figure_of_merit cfg none r.2
    let v := cfg.eirp - r.1.a_tot + rf.1 + 1143/5
    .ok (v, { rf.2 with c_over_n0 := some v, snr := none })

/-- `Satellite.get_snr(p=None)` (dB).  A `None` `b_util` (possible
because `__init__` copies it before `calculate_eirp` normalises the
carrier) would raise a `TypeError` in `self.b_util * 10**6`. -/
def get_snr (cfg : Config) (p? : Option ℚ) (s : SatState) :
    Except String (ℚ × SatState) :=
  if p? = s.p ∧ s.snr ≠ none then .ok (s.snr.getD 0, s)
  else
    let s := (get_link_attenuation cfg (orSelfP p? s.p) s).2
    match get_c_over_n0 cfg p? s with
    | .error e => .error e
    | .ok (cn0, s) =>
      match cfg.b_util with
      | none => .error ("TypeError")
      | some bu =>
        let v := cn0 - 10 * cfg.M.log10 (bu * 10^6)
        .ok (v, { s with snr := some v })

/-- `Carrier.get_snr_threshold`: lazily cached MODCOD-table lookup.
The table (`models/Modulation_dB.csv` read through pandas) is the
external collaborator `table`; a missing row raises `ValueError`
(the embedded message omits the interpolated label). -/
def Carrier.get_snr_threshold (table : String → String → Option ℚ) (c : Carrier) :
    Except String (ℚ × Carrier) :=
  match c.snr_threshold with
  | some v => .ok (v, c)
  | none =>
    if c.modulation = "" ∨ c.fec = "" then
      .error ("Modulation and FEC must be defined to get SNR threshold")
    else
      match table c.modulation c.fec with
      | none => .error ("Modulation with FEC not found in Modulation_dB.csv")
      | some v => .ok (v, { c with snr_threshold := some v })

/-- `Satellite.get_reception_threshold`: session-level cache in front
of `Carrier.get_snr_threshold` (which also fills the carrier's own
cache — a component mutation). -/
def get_reception_threshold (cfg : Config) (s : SatState) :
    Except String (ℚ × SatState) :=
  if cfg.modulation = "" ∨ cfg.fec = "" then
    .error ("You need to create a satellite class with a technology, modulation and FEC to use this function!!!")
  else if s.snr_threshold ≠ none then .ok (s.snr_threshold.getD 0, s)
  else
    match Carrier.get_snr_threshold cfg.table s.car with
    | .error e => .error e
    | .ok (v, car) => .ok (v, { s with snr_threshold := some v, car := car })

/-- `Satellite.get_total_attenuation(p=None)` (the `p` parameter is
ignored by the source body).  It overwrites `self.a_fs`, calls
`get_cross_pol_discrimination()` with no argument, and then evaluates
`10 ** (0.1 * xpd)`: when the XPD call took its compute branch, `xpd`
is the returned 3-tuple and Python raises
`TypeError: can't multiply sequence by non-int`; when `self.a_t` is
still `None`, the final sum raises `TypeError` as well.  Note both
`self.a_x` and `self.a_co` are assigned the same `+0.1·xpd` expression
here, unlike in `get_cross_pol_discrimination`. -/
def get_total_attenuation (cfg : Config) (s : SatState) :
    Except String ((ℚ × ℚ × ℚ) × SatState) :=
  let s := { s with a_fs := some (cfg.fsAtt (get_distance cfg) cfg.freq) }
  match get_cross_pol_discrimination cfg none s with
  | (.computedTriple _ _ _, _) => .error ("TypeError")
  | (.cachedScalar xpd, s) =>
    match s.a_t with
    | none => .error ("TypeError")
    | some a_t =>
      let a_x := 10 * cfg.M.log10 (1 + cfg.M.rpow 10 ((1/10) * xpd))
      let a_co := 10 * cfg.M.log10 (1 + cfg.M.rpow 10 ((1/10) * xpd))
      let a_tot := s.a_fs.getD 0 + a_x + cfg.rc.depoint_loss + a_t
      .ok ((a_tot, a_t, cfg.rc.depoint_loss),
        { s with a_x := some a_x, a_co := some a_co, a_tot := some a_tot })

/-- `models/util.truncate(x, n)`.

Modelled from the spec: `models/util.py` is not under `src/`; per spec
section 4.7 the availability is "`100 − p` truncated to 3 decimal
digits", so `truncate` keeps `n` decimal digits by truncation toward
zero. -/
def truncateQ (x : ℚ) (n : ℕ) : ℚ :=
  if 0 ≤ x then (⌊x * 10^n⌋ : ℚ) / 10^n else (⌈x * 10^n⌉ : ℚ) / 10^n

/-- The loop state of `Satellite.get_availability`: the current
probability, the adaptive step and their previous values, the previous
delta, the threaded session state, and the oracle index for the
`np.random.choice` draws. -/
structure AvailState where
  p : ℚ
  speed : ℚ
  speed_old : ℚ
  delta_old : ℚ
  p_old : ℚ
  sat : SatState
  draws : ℕ
deriving DecidableEq

/-- Outcome of one iteration of the availability search: a returned
availability, the next loop state, or a propagated fatal error. -/
inductive IterRes where
  | ret (v : ℚ) (s : SatState)
  | next (a : AvailState)
  | err (e : String)
deriving DecidableEq

/-- The `if p > 50` boundary reset at the end of the loop body:
`p = 50 - np.random.choice(np.arange(0.01, 2, 0.01))` is modelled by
the oracle `randHi`; afterwards `delta_old = delta`. -/
def availHighReset (cfg : Config) (delta : ℚ) (a : AvailState) : IterRes :=
  if a.p > 50 then
    .next { a with
             p_old := 100, p := 50 - cfg.randHi a.draws,
             speed_old := 1, speed := 1/200000, draws := a.draws + 1,
             delta_old := delta }
  else
    .next { a with delta_old := delta }

/-- The `if p < 0.001` boundary reset:
`p = 0.001 + np.random.choice(np.arange(0.001, 0.002, 0.000005))`
(modelled by `randLo`), step reset, and — unlike the high reset — a
recomputation of `delta` at the new `p` (one extra `get_snr` call). -/
def availBoundary (cfg : Config) (target delta : ℚ) (a : AvailState) : IterRes :=
  if a.p < 1/1000 then
    let pNew := 1/1000 + cfg.randLo a.draws
    let a' : AvailState := { a with
      p_old := 100, p := pNew, speed_old := 1,
      speed := 1/200000, draws := a.draws + 1 }
    match get_snr cfg (some pNew) a'.sat with
    | .error e => .err e
    | .ok (v, sat) => availHighReset cfg (|v - target|) { a' with sat := sat }
  else availHighReset cfg delta a

/-- One iteration of the `for i in range(1, 5000)` body of
`Satellite.get_availability`: compute `delta = |SNR(p) − target|`;
return on `delta < relaxation`; on a worsening delta either return via
the secondary criterion or flip the step to `-speed/10`; otherwise grow
the step by `×1.5`; apply the step, then the two boundary resets, then
`delta_old = delta`. -/
def availIter (cfg : Config) (target relaxation : ℚ) (a : AvailState) : IterRes :=
  match get_snr cfg (some a.p) a.sat with
  | .error e => .err e
  | .ok (v, sat) =>
    let a : AvailState := { a with sat := sat }
    let delta := |v - target|
    if delta < relaxation then
      .ret (truncateQ (100 - a.p) 3) { sat with availability := some (100 - a.p) }
    else if a.delta_old < delta then
      if |a.p_old - a.p| < 1/1000 ∧ a.speed_old * a.speed < 1 then
        .ret (truncateQ (100 - a.p) 3) { sat with availability := some (100 - a.p) }
      else
        let speed := -1 * a.speed / 10
        availBoundary cfg target delta
          { a with
            speed_old := a.speed, speed := speed, p_old := a.p,
            p := a.p + speed }
    else
      let speed := a.speed * (3/2)
      availBoundary cfg target delta
        { a with
          speed_old := a.speed, speed := speed, p_old := a.p,
          p := a.p + speed }

/-- The availability search loop, fuelled by the remaining iteration
count (`range(1, 5000)` supplies `4999`).  Returns the outcome (or
`none` when the fuel runs out without a return) together with the
number of iterations executed. -/
def availLoop (cfg : Config) (target relaxation : ℚ) :
    ℕ → AvailState → Option (Except String (ℚ × SatState)) × ℕ
  | 0, _ => (none, 0)
  | fuel + 1, a =>
    match availIter cfg target relaxation a with
    | .ret v s => (some (.ok (v, s)), 1)
    | .err e => (some (.error e), 1)
    | .next a' =>
      let r := availLoop cfg target relaxation fuel a'
      (r.1, r.2 + 1)

/-- The `sys.exit` message of the availability solver when the 4999
loop iterations elapse without convergence. -/
def unreachableSnrMsg : String :=
  "Can\x27t reach the required SNR. You can change the modulation settings or the required snr relaxation!!!"

/-- `Satellite.get_availability(margin=0, relaxation=0.1)`,
instrumented: the result, the number of loop iterations executed, and
whether the loop ran out of its 4999 iterations without returning.
`target = threshold + margin`; the fast path returns `99.999` when
`SNR(0.001) − target ≥ 0`; initial loop state
`p = 0.0012, speed = 0.000005, speed_old = 0, delta_old = 10⁹,
p_old = 10⁷`. -/
def get_availabilityC (cfg : Config) (margin relaxation : ℚ) (s : SatState) :
    (Except String (ℚ × SatState)) × ℕ × Bool :=
  match get_reception_threshold cfg s with
  | .error e => (.error e, 0, false)
  | .ok (th, s) =>
    let target := th + margin
    match get_snr cfg (some (1/1000)) s with
    | .error e => (.error e, 0, false)
    | .ok (v, s) =>
      if v - target ≥ 0 then (.ok (99999/1000, s), 0, false)
      else
        match availLoop cfg target relaxation 4999
          ⟨3/2500, 1/200000, 0, 1000000000, 10000000, s, 0⟩ with
        | (some r, n) => (r, n, false)
        | (none, n) => (.error unreachableSnrMsg, n, true)

/-- `Satellite.get_availability` proper (the uninstrumented result). -/
def get_availability (cfg : Config) (margin relaxation : ℚ) (s : SatState) :
    Except String (ℚ × SatState) :=
  (get_availabilityC cfg margin relaxation s).1

/-- The carrier held in the final state of an `Except`-returning
session operation, or the given default when the operation failed
(a Python exception aborts the calculation; the carrier mutations of
interest all happen on success paths). -/
def exceptStateCar (r : Except String (ℚ × SatState)) (d : Carrier) : Carrier :=
  match r with
  | .ok (_, s) => s.car
  | .error _ => d

/-- The carrier held in the state carried by an iteration outcome of
the availability search, or the default on a propagated error. -/
def iterResCar (r : IterRes) (d : Carrier) : Carrier :=
  match r with
  | .ret _ s => s.car
  | .next a => a.sat.car
  | .err _ => d

/-- The step (`speed`) of the next loop state, when the iteration
continues. -/
def iterResSpeed (r : IterRes) : Option ℚ :=
  match r with
  | .next a => some a.speed
  | _ => none

/-- The probability of the next loop state, when the iteration
continues. -/
def iterResP (r : IterRes) : Option ℚ :=
  match r with
  | .next a => some a.p
  | _ => none

/-- The carrier of the final state of an availability-loop outcome, or
the default when the loop ran out of fuel or failed. -/
def optExceptCar (r : Option (Except String (ℚ × SatState))) (d : Carrier) :
    Carrier :=
  match r with
  | some e => exceptStateCar e d
  | none => d

/-- A transponder with an explicitly zero bandwidth, for the
counterexample to claim C9. -/
def trZeroBw : Transponder := ⟨14, 54, some 0, 0, 0⟩

/-- A plain correctly-configured transponder fixture. -/
def trPlain : Transponder := ⟨14, 54, some 36, 0, 0⟩

/-- A plain GEO satellite position fixture. -/
def posPlain : SatellitePosition := ⟨-70, 0, 35786⟩

/-- A plain correctly-configured carrier fixture. -/
def carPlain : Carrier := ⟨"8PSK", "2/3", some (1/5), some 9, none, none, none⟩

/-- A session state with a figure of merit cached for `p = 0.001`, for
the witness of the stale-cache theorem (claim C4). -/
def satStateFomCached : SatState :=
  { initSatState carPlain with
      p := some (1/1000), figure_of_merit := some 5, a_t := some 2,
      a_tot := some 3, a_fs := some 1, a_g := some 0, a_c := some 0,
      a_r := some 1, a_s := some 0 }

/-- The session state after a successful threshold lookup on the
overhead fixture (used by concrete witnesses). -/
def c1s1 : SatState :=
  match get_reception_threshold cfgOverhead (initSatState carPlain) with
  | .ok (_, s) => s
  | .error _ => initSatState carPlain

/-- The SNR value computed at `p = 0.001` on the overhead fixture. -/
def c1v : ℚ :=
  match get_snr cfgOverhead (some (1/1000)) c1s1 with
  | .ok (v, _) => v
  | .error _ => 0

/-- The session state after the `p = 0.001` SNR computation on the
overhead fixture. -/
def c1s2 : SatState :=
  match get_snr cfgOverhead (some (1/1000)) c1s1 with
  | .ok (_, s) => s
  | .error _ => c1s1

/-- The engine's figure of merit for a session whose reception is a
`SimpleReception(gt_value, depoint_loss)` configured by
`set_parameters(freq, e)`, with a zero atmospheric model, evaluated on
a fresh session state: exactly what `Satellite.get_figure_of_merit()`
computes when the engine (e.g. `get_c_over_n0`) requests G/T.  Note it
is the `Satellite` method that runs — the engine never calls
`SimpleReception.get_figure_of_merit`. -/
def fomOfSimple (M : MathPrims) (gt depoint freq e : ℚ) : ℚ :=
  (get_figure_of_merit
    { M := M, sat_long := 0, h_sat := 35786, freq := freq, eirp_max := 1,
      eirp := 1, b_util := some 36, modulation := "8PSK", fec := "2/3",
      gs := ⟨0, 0, 6371⟩,
      rc := ((SimpleReception.init gt depoint).set_parameters freq e).toReception,
      atm := fun _ => ⟨0, 0, 0, 0, 0⟩, fsAtt := fun _ _ => 0,
      table := fun _ _ => none, randLo := fun _ => 0, randHi := fun _ => 0 }
    none (initSatState carPlain)).1

/-- Identity-flavoured instantiation of the primitives for witnesses
needing a strictly monotone `log10`. -/
def primsId : MathPrims where
  cosDeg := fun _ => 0
  sinDeg := fun _ => 0
  arctanDeg := fun _ => 0
  sqrt := fun _ => 0
  log10 := fun x => x
  log := fun _ => 0
  rpow := fun _ _ => 1
  pi := 3

/-- A mid-search loop state about to take the worsening branch with a
step large enough that the secondary criterion cannot fire: `p = 1`,
step `0.002`, previous `p` at the post-reset marker `100`. -/
def aFlip : AvailState :=
  { p := 1, speed := 1/500, speed_old := 0, delta_old := 0, p_old := 100,
    sat := c1s2, draws := 0 }

/-- The SNR value computed at `p = 1` from the `aFlip` state. -/
def c2v : ℚ :=
  match get_snr cfgOverhead (some 1) aFlip.sat with
  | .ok (v, _) => v
  | .error _ => 0

/-- The session state after the `p = 1` SNR computation from `aFlip`. -/
def c2sat : SatState :=
  match get_snr cfgOverhead (some 1) aFlip.sat with
  | .ok (_, s) => s
  | .error _ => aFlip.sat

/-!
## Theorems
-/

/-- Claim C6: with the GEO satellite directly overhead
(`sat_long = site_long`, station latitude 0) the elevation is 90
degrees and the slant distance is exactly the satellite altitude.
The hypotheses are the defining evaluations of the uninterpreted
primitives at the points used (`cos 0 = 1`, `sqrt 0 = 0`,
`cos 90° = 0`, `sin 90° = 1`, and `sqrt` inverts the square of
`earth_radius + h_sat`). -/
theorem overhead_geo_elevation_and_distance (cfg : Config)
    (hlat : cfg.gs.site_lat = 0) (hlong : cfg.sat_long = cfg.gs.site_long)
    (hcos0 : cfg.M.cosDeg 0 = 1) (hsqrt0 : cfg.M.sqrt 0 = 0)
    (hcos90 : cfg.M.cosDeg 90 = 0) (hsin90 : cfg.M.sinDeg 90 = 1)
    (hsqrtsq : cfg.M.sqrt ((cfg.gs.earth_radius + cfg.h_sat)^2)
      = cfg.gs.earth_radius + cfg.h_sat) :
    get_elevation cfg = 90 ∧ get_distance cfg = cfg.h_sat := by
  have helev : get_elevation cfg = 90 := by
    simp only [get_elevation, hlong, sub_self, hlat, hcos0]
    norm_num [hsqrt0]
  refine ⟨helev, ?_⟩
  simp only [get_distance, helev, hcos90, hsin90, mul_zero, mul_one]
  norm_num [hsqrtsq]

/-- Witness for claim C6 at the concrete overhead configuration. -/
theorem overhead_geo_elevation_and_distance_witness :
    get_elevation cfgOverhead = 90 ∧ get_distance cfgOverhead = 35786 := by
  have h := overhead_geo_elevation_and_distance cfgOverhead
    (by decide) (by decide) (by decide) (by decide) (by decide) (by decide)
    (by norm_num [cfgOverhead, primsW])
  simpa [cfgOverhead] using h

/-- Claim C7: `calculate_eirp` returns
`EIRP_max − back_off − contorno + 10·log10(bu/bt)` where a zero or
unset (`None`) bandwidth is replaced by the default 36 MHz before the
division, so the divisor and the `log10` argument are never zero and
the zero-division / log-of-zero branch is never reached. -/
theorem calculate_eirp_formula_and_guard (M : MathPrims) (tr : Transponder)
    (car : Carrier) :
    ∃ bt bu : ℚ,
      bt = (match tr.b_transp with
            | none => 36
            | some x => if x = 0 then 36 else x) ∧
      bu = (match car.b_util with
            | none => 36
            | some x => if x = 0 then 36 else x) ∧
      bt ≠ 0 ∧ bu ≠ 0 ∧ bu / bt ≠ 0 ∧
      (calculate_eirp M tr car).1
        = tr.eirp_max - tr.back_off - tr.contorno + 10 * M.log10 (bu / bt) := by
  obtain ⟨freq, eirp_max, bt?, back_off, contorno⟩ := tr
  obtain ⟨m, fc, ro, bu?, sr, br, st⟩ := car
  refine ⟨_, _, rfl, rfl, ?_, ?_, ?_, ?_⟩
  · cases bt? with
    | none => norm_num
    | some x =>
      by_cases hx : x = 0
      · simp [hx]
      · simp [hx]
  · cases bu? with
    | none => norm_num
    | some y =>
      by_cases hy : y = 0
      · simp [hy]
      · simp [hy]
  · apply div_ne_zero
    · cases bu? with
      | none => norm_num
      | some y =>
        by_cases hy : y = 0
        · simp [hy]
        · simp [hy]
    · cases bt? with
      | none => norm_num
      | some x =>
        by_cases hx : x = 0
        · simp [hx]
        · simp [hx]
  · cases bt? with
    | none =>
      cases bu? with
      | none => simp [calculate_eirp]
      | some y =>
        by_cases hy : y = 0 <;> simp [calculate_eirp, hy]
    | some x =>
      by_cases hx : x = 0
      · cases bu? with
        | none => simp [calculate_eirp, hx]
        | some y =>
          by_cases hy : y = 0 <;> simp [calculate_eirp, hx, hy]
      · cases bu? with
        | none => simp [calculate_eirp, hx]
        | some y =>
          by_cases hy : y = 0 <;> simp [calculate_eirp, hx, hy]

/-- Counterexample to claim C9: `calculate_eirp` is not read-only on
the shared components — on a transponder whose bandwidth is `0` it
overwrites `b_transp` with `36` in place, so the post-call transponder
differs from the argument. -/
theorem calculate_eirp_mutates_zero_bandwidth :
    (calculate_eirp primsW trZeroBw carPlain).2.1 ≠ trZeroBw := by decide

/-- Helper: `get_link_attenuation` never touches the carrier component
held by the session. -/
theorem get_link_attenuation_car (cfg : Config) (p? : Option ℚ) (s : SatState) :
    (get_link_attenuation cfg p? s).2.car = s.car := by
  unfold get_link_attenuation
  by_cases hp : s.p = none <;> simp [hp] <;> split <;> rfl

/-- Helper: `get_cross_pol_discrimination` never touches the carrier. -/
theorem get_cross_pol_discrimination_car (cfg : Config) (p? : Option ℚ)
    (s : SatState) :
    (get_cross_pol_discrimination cfg p? s).2.car = s.car := by
  unfold get_cross_pol_discrimination
  split
  · rfl
  · simp [get_link_attenuation_car]

/-- Helper: `get_power_flux_density` never touches the carrier. -/
theorem get_power_flux_density_car (cfg : Config) (p? : Option ℚ)
    (s : SatState) :
    (get_power_flux_density cfg p? s).2.car = s.car := by
  unfold get_power_flux_density
  split
  · rfl
  · simp [get_link_attenuation_car]

/-- Helper: `get_antenna_noise_rain` never touches the carrier. -/
theorem get_antenna_noise_rain_car (cfg : Config) (p? : Option ℚ)
    (s : SatState) :
    (get_antenna_noise_rain cfg p? s).2.car = s.car := by
  unfold get_antenna_noise_rain
  split
  · rfl
  · simp [get_link_attenuation_car]

/-- Helper: `get_total_noise_temp` never touches the carrier. -/
theorem get_total_noise_temp_car (cfg : Config) (p? : Option ℚ)
    (s : SatState) :
    (get_total_noise_temp cfg p? s).2.car = s.car := by
  unfold get_total_noise_temp
  split
  · rfl
  · cases p? <;>
      simp [get_antenna_noise_rain_car, get_link_attenuation_car]

/-- Helper: `get_figure_of_merit` never touches the carrier. -/
theorem get_figure_of_merit_car (cfg : Config) (p? : Option ℚ)
    (s : SatState) :
    (get_figure_of_merit cfg p? s).2.car = s.car := by
  unfold get_figure_of_merit
  split
  · rfl
  · cases p? <;>
      simp [get_total_noise_temp_car, get_antenna_noise_rain_car,
        get_link_attenuation_car]

/-- Helper: `get_c_over_n0` never touches the carrier. -/
theorem get_c_over_n0_car (cfg : Config) (p? : Option ℚ) (s : SatState) :
    exceptStateCar (get_c_over_n0 cfg p? s) s.car = s.car := by
  unfold get_c_over_n0
  by_cases h1 : cfg.eirp_max = 0
  · simp [h1, exceptStateCar]
  · by_cases h2 : s.c_over_n0 ≠ none ∧ s.p = p?
    · simp [h1, h2, exceptStateCar]
    · simp [h1, h2, exceptStateCar, get_figure_of_merit_car,
        get_link_attenuation_car]

/-- Helper: `get_snr` never touches the carrier. -/
theorem get_snr_car (cfg : Config) (p? : Option ℚ) (s : SatState) :
    exceptStateCar (get_snr cfg p? s) s.car = s.car := by
  unfold get_snr
  split
  · rfl
  · have hl := get_link_attenuation_car cfg (orSelfP p? s.p) s
    have hc := get_c_over_n0_car cfg p?
      ((get_link_attenuation cfg (orSelfP p? s.p) s).2)
    rcases hco : get_c_over_n0 cfg p?
        ((get_link_attenuation cfg (orSelfP p? s.p) s).2)
      with e | ⟨cn0, s'⟩
    · simp [hco, exceptStateCar]
    · rw [hco] at hc
      simp only [exceptStateCar] at hc
      cases hbu : cfg.b_util with
      | none => simp [hco, hbu, exceptStateCar]
      | some bu => simp [hco, hbu, exceptStateCar, hc, hl]

/-- Helper: the carrier's configuration fields (everything except the
lazy caches) survive `get_reception_threshold`. -/
theorem get_reception_threshold_carconfig (cfg : Config) (s : SatState) :
    (exceptStateCar (get_reception_threshold cfg s) s.car).config
      = s.car.config := by
  unfold get_reception_threshold
  by_cases h1 : cfg.modulation = "" ∨ cfg.fec = ""
  · simp [h1, exceptStateCar]
  · by_cases h2 : s.snr_threshold ≠ none
    · simp [h1, h2, exceptStateCar]
    · unfold Carrier.get_snr_threshold
      cases hst : s.car.snr_threshold with
      | some v => simp [h1, h2, hst, exceptStateCar]
      | none =>
        by_cases h3 : s.car.modulation = "" ∨ s.car.fec = ""
        · simp [h1, h2, hst, h3, exceptStateCar]
        · cases htab : cfg.table s.car.modulation s.car.fec with
          | none => simp [h1, h2, hst, h3, htab, exceptStateCar]
          | some v =>
            simp [h1, h2, hst, h3, htab, exceptStateCar, Carrier.config]

/-- Helper: the high-boundary reset never touches the session state. -/
theorem availHighReset_car (cfg : Config) (d : ℚ) (a : AvailState) :
    iterResCar (availHighReset cfg d a) a.sat.car = a.sat.car := by
  unfold availHighReset
  split <;> simp [iterResCar]

/-- Helper: `availHighReset_car` with the carrier abstracted. -/
theorem availHighReset_car' (cfg : Config) (d : ℚ) (a : AvailState)
    (c : Carrier) (h : a.sat.car = c) :
    iterResCar (availHighReset cfg d a) c = c := by
  subst h; exact availHighReset_car cfg d a

/-- Helper: the boundary resets preserve the carrier. -/
theorem availBoundary_car (cfg : Config) (t d : ℚ) (a : AvailState) :
    iterResCar (availBoundary cfg t d a) a.sat.car = a.sat.car := by
  unfold availBoundary
  split
  · have hs := get_snr_car cfg (some (1/1000 + cfg.randLo a.draws)) a.sat
    rcases hsnr : get_snr cfg (some (1/1000 + cfg.randLo a.draws)) a.sat
      with e | ⟨v, sat⟩
    · dsimp only
      rw [hsnr]
      rfl
    · rw [hsnr] at hs
      simp only [exceptStateCar] at hs
      dsimp only
      rw [hsnr]
      exact availHighReset_car' cfg _ _ _ (by simp [hs])
  · exact availHighReset_car cfg d a

/-- Helper: `availBoundary_car` with the carrier abstracted. -/
theorem availBoundary_car' (cfg : Config) (t d : ℚ) (a : AvailState)
    (c : Carrier) (h : a.sat.car = c) :
    iterResCar (availBoundary cfg t d a) c = c := by
  subst h; exact availBoundary_car cfg t d a

/-- Helper: one availability-search iteration preserves the carrier. -/
theorem availIter_car (cfg : Config) (t r : ℚ) (a : AvailState) :
    iterResCar (availIter cfg t r a) a.sat.car = a.sat.car := by
  unfold availIter
  have hs := get_snr_car cfg (some a.p) a.sat
  rcases hsnr : get_snr cfg (some a.p) a.sat with e | ⟨v, sat⟩
  · simp [hsnr, iterResCar]
  · rw [hsnr] at hs
    simp only [exceptStateCar] at hs
    simp only [hsnr]
    split
    · simp [iterResCar, hs]
    · split
      · split
        · simp [iterResCar, hs]
        · exact availBoundary_car' cfg _ _ _ _ (by simp [hs])
      · exact availBoundary_car' cfg _ _ _ _ (by simp [hs])

/-- Helper: the availability loop preserves the carrier. -/
theorem availLoop_car (cfg : Config) (t r : ℚ) :
    ∀ (fuel : ℕ) (a : AvailState),
      optExceptCar (availLoop cfg t r fuel a).1 a.sat.car = a.sat.car
  | 0, a => by simp [availLoop, optExceptCar]
  | fuel + 1, a => by
    unfold availLoop
    have hi := availIter_car cfg t r a
    cases hit : availIter cfg t r a with
    | ret v s =>
      rw [hit] at hi
      simp only [iterResCar] at hi
      simp [hit, optExceptCar, exceptStateCar, hi]
    | next a' =>
      rw [hit] at hi
      simp only [iterResCar] at hi
      have hrec := availLoop_car cfg t r fuel a'
      rw [hi] at hrec
      simp [hit, hrec]
    | err e =>
      simp [hit, optExceptCar, exceptStateCar]

/-- Helper: `get_availability` preserves the carrier's configuration
fields (only the lazy `snr_threshold` cache may be filled, through
`get_reception_threshold`). -/
theorem get_availability_carconfig (cfg : Config) (m r : ℚ) (s : SatState) :
    (exceptStateCar (get_availability cfg m r s) s.car).config
      = s.car.config := by
  unfold get_availability get_availabilityC
  have hth := get_reception_threshold_carconfig cfg s
  rcases hts : get_reception_threshold cfg s with e | ⟨th, s1⟩
  · rfl
  · rw [hts] at hth
    simp only [exceptStateCar] at hth
    dsimp only
    have hsn := get_snr_car cfg (some (1/1000)) s1
    rcases hsnr : get_snr cfg (some (1/1000)) s1 with e | ⟨v, s2⟩
    · rfl
    · rw [hsnr] at hsn
      simp only [exceptStateCar] at hsn
      dsimp only
      by_cases hfast : v - (th + m) ≥ 0
      · rw [if_pos hfast]
        dsimp only [exceptStateCar]
        rw [hsn]
        exact hth
      · rw [if_neg hfast]
        have hloop := availLoop_car cfg (th + m) r 4999
          ⟨3/2500, 1/200000, 0, 1000000000, 10000000, s2, 0⟩
        rcases hl : availLoop cfg (th + m) r 4999
            ⟨3/2500, 1/200000, 0, 1000000000, 10000000, s2, 0⟩ with ⟨res?, n⟩
        rw [hl] at hloop
        dsimp only at hloop
        cases res? with
        | none => rfl
        | some res =>
          simp only [optExceptCar] at hloop
          cases res with
          | error e => rfl
          | ok pr =>
            obtain ⟨v2, s3⟩ := pr
            simp only [exceptStateCar] at hloop ⊢
            rw [hloop, hsn]
            exact hth

/-- Claim C9 (amended): provided both bandwidths are set and nonzero,
`calculate_eirp` returns both components untouched and session
construction passes the position through unchanged and returns the
components untouched, and every probability-dependent session getter
leaves the carrier component untouched — but the components are still
not fully read-only: `Carrier.get_snr_threshold` (reached from
`get_reception_threshold` and hence from `get_availability`) fills the
shared carrier's lazy `snr_threshold` cache field in place, as the
last two conjuncts prove on any carrier with an empty cache and a
successful MODCOD lookup, so those operations preserve only the
carrier's configuration fields.  (When a bandwidth is `None` or `0`,
`calculate_eirp` instead overwrites it with 36 in place — see the
counterexample.) -/
theorem components_readonly_when_bandwidths_set
    (M : MathPrims) (pos : SatellitePosition) (tr : Transponder) (car : Carrier)
    (gs : GroundStation) (rc : Reception) (atm : ℚ → AtmOut)
    (fsA : ℚ → ℚ → ℚ) (table : String → String → Option ℚ)
    (randLo randHi : ℕ → ℚ) (cfg : Config) (p? : Option ℚ) (s : SatState)
    (margin relax : ℚ) (car2 : Carrier) (v : ℚ)
    (hbt : tr.b_transp ≠ none) (hbt0 : tr.b_transp ≠ some 0)
    (hbu : car.b_util ≠ none) (hbu0 : car.b_util ≠ some 0)
    (hcs : car2.snr_threshold = none) (hm : car2.modulation ≠ "")
    (hf : car2.fec ≠ "") (htab : table car2.modulation car2.fec = some v) :
    (calculate_eirp M tr car).2.1 = tr ∧
    (calculate_eirp M tr car).2.2 = car ∧
    (Satellite.init M pos tr car gs rc atm fsA table randLo randHi).2.2.1 = pos ∧
    (Satellite.init M pos tr car gs rc atm fsA table randLo randHi).2.2.2.1 = tr ∧
    (Satellite.init M pos tr car gs rc atm fsA table randLo randHi).2.2.2.2 = car ∧
    (get_link_attenuation cfg p? s).2.car = s.car ∧
    (get_cross_pol_discrimination cfg p? s).2.car = s.car ∧
    (get_power_flux_density cfg p? s).2.car = s.car ∧
    (get_antenna_noise_rain cfg p? s).2.car = s.car ∧
    (get_total_noise_temp cfg p? s).2.car = s.car ∧
    (get_figure_of_merit cfg p? s).2.car = s.car ∧
    exceptStateCar (get_c_over_n0 cfg p? s) s.car = s.car ∧
    exceptStateCar (get_snr cfg p? s) s.car = s.car ∧
    (exceptStateCar (get_reception_threshold cfg s) s.car).config
      = s.car.config ∧
    (exceptStateCar (get_availability cfg margin relax s) s.car).config
      = s.car.config ∧
    Carrier.get_snr_threshold table car2
      = .ok (v, { car2 with snr_threshold := some v }) ∧
    ({ car2 with snr_threshold := some v } : Carrier).snr_threshold
      ≠ car2.snr_threshold := by
  have heirp1 : (calculate_eirp M tr car).2.1 = tr := by
    unfold calculate_eirp
    simp [hbt, hbt0, hbu, hbu0]
  have heirp2 : (calculate_eirp M tr car).2.2 = car := by
    unfold calculate_eirp
    simp [hbt, hbt0, hbu, hbu0]
  refine ⟨heirp1, heirp2, ?_, ?_, ?_,
    get_link_attenuation_car cfg p? s,
    get_cross_pol_discrimination_car cfg p? s,
    get_power_flux_density_car cfg p? s,
    get_antenna_noise_rain_car cfg p? s,
    get_total_noise_temp_car cfg p? s,
    get_figure_of_merit_car cfg p? s,
    get_c_over_n0_car cfg p? s,
    get_snr_car cfg p? s,
    get_reception_threshold_carconfig cfg s,
    get_availability_carconfig cfg margin relax s, ?_, ?_⟩
  · rfl
  · simpa [Satellite.init] using heirp1
  · simpa [Satellite.init] using heirp2
  · unfold Carrier.get_snr_threshold
    rw [hcs]
    rw [if_neg (by rintro (h | h); exacts [hm h, hf h])]
    rw [htab]
  · simp [hcs]

/-- Witness for claim C9's amended theorem at concrete components and
a concrete session. -/
theorem components_readonly_witness :
    trPlain.b_transp ≠ none ∧ trPlain.b_transp ≠ some 0 ∧
    carPlain.b_util ≠ none ∧ carPlain.b_util ≠ some 0 ∧
    carPlain.snr_threshold = none ∧ carPlain.modulation ≠ "" ∧
    carPlain.fec ≠ "" ∧
    ((fun _ _ => some (49/5)) carPlain.modulation carPlain.fec
      = some ((49 : ℚ)/5)) ∧
    ((calculate_eirp primsW trPlain carPlain).2.1 = trPlain ∧
     (calculate_eirp primsW trPlain carPlain).2.2 = carPlain ∧
     (Satellite.init primsW posPlain trPlain carPlain ⟨0, 0, 6371⟩
        cfgOverhead.rc (fun _ => ⟨0, 0, 0, 0, 0⟩) (fun _ _ => 0)
        (fun _ _ => some (49/5)) (fun _ => 1/1000) (fun _ => 1)).2.2.1
        = posPlain ∧
     (Satellite.init primsW posPlain trPlain carPlain ⟨0, 0, 6371⟩
        cfgOverhead.rc (fun _ => ⟨0, 0, 0, 0, 0⟩) (fun _ _ => 0)
        (fun _ _ => some (49/5)) (fun _ => 1/1000) (fun _ => 1)).2.2.2.1
        = trPlain ∧
     (Satellite.init primsW posPlain trPlain carPlain ⟨0, 0, 6371⟩
        cfgOverhead.rc (fun _ => ⟨0, 0, 0, 0, 0⟩) (fun _ _ => 0)
        (fun _ _ => some (49/5)) (fun _ => 1/1000) (fun _ => 1)).2.2.2.2
        = carPlain ∧
     (get_link_attenuation cfgOverhead (some (1/100)) satStateFomCached).2.car
        = satStateFomCached.car ∧
     (get_cross_pol_discrimination cfgOverhead (some (1/100))
        satStateFomCached).2.car = satStateFomCached.car ∧
     (get_power_flux_density cfgOverhead (some (1/100))
        satStateFomCached).2.car = satStateFomCached.car ∧
     (get_antenna_noise_rain cfgOverhead (some (1/100))
        satStateFomCached).2.car = satStateFomCached.car ∧
     (get_total_noise_temp cfgOverhead (some (1/100))
        satStateFomCached).2.car = satStateFomCached.car ∧
     (get_figure_of_merit cfgOverhead (some (1/100))
        satStateFomCached).2.car = satStateFomCached.car ∧
     exceptStateCar (get_c_over_n0 cfgOverhead (some (1/100)) satStateFomCached)
        satStateFomCached.car = satStateFomCached.car ∧
     exceptStateCar (get_snr cfgOverhead (some (1/100)) satStateFomCached)
        satStateFomCached.car = satStateFomCached.car ∧
     (exceptStateCar (get_reception_threshold cfgOverhead satStateFomCached)
        satStateFomCached.car).config = satStateFomCached.car.config ∧
     (exceptStateCar (get_availability cfgOverhead (-1000000000) (1/10)
        satStateFomCached) satStateFomCached.car).config
        = satStateFomCached.car.config ∧
     Carrier.get_snr_threshold (fun _ _ => some (49/5)) carPlain
        = .ok (49/5, { carPlain with snr_threshold := some (49/5) }) ∧
     ({ carPlain with snr_threshold := some (49/5) } : Carrier).snr_threshold
        ≠ carPlain.snr_threshold) :=
  ⟨by decide, by decide, by decide, by decide,
   rfl, by decide, by decide, rfl,
   components_readonly_when_bandwidths_set primsW posPlain trPlain carPlain
     ⟨0, 0, 6371⟩ cfgOverhead.rc (fun _ => ⟨0, 0, 0, 0, 0⟩) (fun _ _ => 0)
     (fun _ _ => some (49/5)) (fun _ => 1/1000) (fun _ => 1) cfgOverhead
     (some (1/100)) satStateFomCached (-1000000000) (1/10) carPlain (49/5)
     (by decide) (by decide) (by decide) (by decide)
     rfl (by decide) (by decide) rfl⟩

/-- Claim C4 (code behaviour at the failing input): when the figure of
merit is already cached, `Satellite.get_figure_of_merit` called with a
*different* exceedance probability returns the stale cached value and
leaves the whole session state — including the atmospheric-model call
counter — unchanged: neither invalidation nor recomputation happens,
contradicting the specified cache-invalidation discipline. -/
theorem get_figure_of_merit_stale_cache (cfg : Config) (s : SatState)
    (v pOld pNew : ℚ) (hv : s.figure_of_merit = some v)
    (hp : s.p = some pOld) (hne : pNew ≠ pOld) :
    get_figure_of_merit cfg (some pNew) s = (v, s) ∧
    (get_figure_of_merit cfg (some pNew) s).2.atmCalls = s.atmCalls := by
  have h : get_figure_of_merit cfg (some pNew) s = (v, s) := by
    unfold get_figure_of_merit
    simp [hv]
  exact ⟨h, by rw [h]⟩

/-- Witness for the stale figure-of-merit theorem: a session whose G/T
was cached at `p = 0.001` serves the cached value for `p = 0.01`
without touching the state. -/
theorem get_figure_of_merit_stale_cache_witness :
    get_figure_of_merit cfgOverhead (some (1/100)) satStateFomCached
      = (5, satStateFomCached) ∧
    (get_figure_of_merit cfgOverhead (some (1/100)) satStateFomCached).2.atmCalls
      = satStateFomCached.atmCalls :=
  get_figure_of_merit_stale_cache cfgOverhead satStateFomCached 5 (1/1000) (1/100)
    rfl rfl (by norm_num)

/-- Claim C1: if the SNR evaluated at exceedance probability `0.001`
is at least the target (`threshold + margin`), `get_availability`
returns exactly `99.999` (here `99999/1000`) immediately, executing
zero iterations of the search loop. -/
theorem availability_fast_path (cfg : Config) (margin relaxation : ℚ)
    (s s1 s2 : SatState) (th v : ℚ)
    (hth : get_reception_threshold cfg s = .ok (th, s1))
    (hsnr : get_snr cfg (some (1/1000)) s1 = .ok (v, s2))
    (hge : v ≥ th + margin) :
    get_availabilityC cfg margin relaxation s = (.ok (99999/1000, s2), 0, false) := by
  unfold get_availabilityC
  rw [hth]
  dsimp only
  rw [hsnr]
  dsimp only
  rw [if_pos (by linarith : v - (th + margin) ≥ 0)]

set_option maxRecDepth 8000 in
/-- Witness for claim C1: a concrete link whose `SNR(0.001)` clears
the (deliberately low) target, so the solver returns `99.999` with the
loop never entered. -/
theorem availability_fast_path_witness :
    get_reception_threshold cfgOverhead (initSatState carPlain)
      = .ok (49/5, c1s1) ∧
    get_snr cfgOverhead (some (1/1000)) c1s1 = .ok (c1v, c1s2) ∧
    c1v ≥ 49/5 + (-1000000000) ∧
    get_availabilityC cfgOverhead (-1000000000) (1/10) (initSatState carPlain)
      = (.ok (99999/1000, c1s2), 0, false) := by
  refine ⟨?_, ?_, ?_, ?_⟩
  · with_unfolding_all rfl
  · with_unfolding_all rfl
  · with_unfolding_all decide
  · exact availability_fast_path cfgOverhead (-1000000000) (1/10)
      (initSatState carPlain) c1s1 c1s2 (49/5) c1v
      (by with_unfolding_all rfl) (by with_unfolding_all rfl)
      (by with_unfolding_all decide)

/-- Helper: the availability loop executes at most `fuel` iterations. -/
theorem availLoop_count_le (cfg : Config) (t r : ℚ) :
    ∀ (fuel : ℕ) (a : AvailState), (availLoop cfg t r fuel a).2 ≤ fuel
  | 0, _ => le_refl 0
  | fuel + 1, a => by
    unfold availLoop
    cases availIter cfg t r a with
    | ret v s => simp
    | err e => simp
    | next a' =>
      have h := availLoop_count_le cfg t r fuel a'
      dsimp only
      omega

/-- Claim C3: the availability search executes at most 5000 loop
iterations (the `range(1, 5000)` loop allows 4999), and whenever the
loop exhausts its iteration budget without meeting a convergence
criterion (`ranOut = true`), the call produces the fatal
'target SNR unreachable' `sys.exit` — suggesting changing the
modulation settings or the SNR relaxation — instead of returning a
value. -/
theorem availability_iteration_bound_and_unreachable_error
    (cfg : Config) (margin relaxation : ℚ) (s : SatState) :
    (get_availabilityC cfg margin relaxation s).2.1 ≤ 5000 ∧
    ((get_availabilityC cfg margin relaxation s).2.2 = false ∨
      (get_availabilityC cfg margin relaxation s).1
        = .error unreachableSnrMsg) := by
  unfold get_availabilityC
  rcases hts : get_reception_threshold cfg s with e | ⟨th, s1⟩
  · exact ⟨by norm_num, Or.inl rfl⟩
  · dsimp only
    rcases hsnr : get_snr cfg (some (1/1000)) s1 with e | ⟨v, s2⟩
    · exact ⟨by norm_num, Or.inl rfl⟩
    · dsimp only
      by_cases hfast : v - (th + margin) ≥ 0
      · rw [if_pos hfast]
        exact ⟨by norm_num, Or.inl rfl⟩
      · rw [if_neg hfast]
        have hcnt := availLoop_count_le cfg (th + margin) relaxation 4999
          ⟨3/2500, 1/200000, 0, 1000000000, 10000000, s2, 0⟩
        rcases hl : availLoop cfg (th + margin) relaxation 4999
            ⟨3/2500, 1/200000, 0, 1000000000, 10000000, s2, 0⟩ with ⟨res?, n⟩
        rw [hl] at hcnt
        dsimp only at hcnt
        cases res? with
        | some res =>
          refine ⟨?_, Or.inl rfl⟩
          dsimp only
          omega
        | none =>
          refine ⟨?_, Or.inr rfl⟩
          dsimp only
          omega

/-- Helper: symbolic evaluation of the engine figure of merit for a
simplified receiver at elevation `e ∈ [10, 90)` and frequency
`≥ 10 GHz`, under a zero atmospheric model: the detailed chain runs on
the compatibility attributes (`α = 10^0 = 1`, antenna gain estimate
`gt + 20`, antenna noise `T_a = (20 + 0.3·e) + 10`) and produces
`10·log10(β·G / (2·T_a))` — not `gt_value`. -/
theorem fomOfSimple_eval (M : MathPrims) (gt depoint freq e : ℚ)
    (hf : ¬(freq < 10)) (hel : 10 ≤ e) (heu : e < 90)
    (hr0 : M.rpow 10 0 = 1) :
    fomOfSimple M gt depoint freq e
      = 10 * M.log10 ((M.rpow 10 (depoint / 10) * M.rpow 10 ((gt + 20) / 10))
          / (2 * (30 + (3/10) * e))) := by
  have h1 : ¬(e < -10) := by linarith
  have h2 : ¬(e < 0) := by linarith
  have h3 : ¬(e < 10) := by linarith
  unfold fomOfSimple get_figure_of_merit get_total_noise_temp
    get_antenna_noise_rain get_link_attenuation orSelfP initSatState carPlain
    SimpleReception.toReception SimpleReception.set_parameters
    SimpleReception.init SimpleReception.get_antenna_gain
    SimpleReception.get_brightness_temp SimpleReception.get_ground_temp
  simp [hf, h1, h2, h3, heu, hr0, orSelfP]
  norm_num [hr0]
  ring_nf

/-- Claim C5 (code behaviour at the failing input): for a session with
a simplified (G/T-based) receiver the engine does *not* use the
supplied `gt_value` verbatim — `Satellite.get_figure_of_merit` never
dispatches to `SimpleReception.get_figure_of_merit` but executes the
detailed noise-temperature chain on the receiver's compatibility
attributes, and the result depends on the elevation: two sessions with
the same `gt_value` but different elevations obtain different figures
of merit, so the engine G/T cannot equal `gt_value` for both. -/
theorem simple_reception_fom_not_verbatim (M : MathPrims)
    (gt depoint freq e₁ e₂ : ℚ)
    (hf : ¬(freq < 10)) (he₁l : 10 ≤ e₁) (he₁u : e₁ < 90)
    (he₂l : 10 ≤ e₂) (he₂u : e₂ < 90) (hne : e₁ ≠ e₂)
    (hr0 : M.rpow 10 0 = 1)
    (hbeta : 0 < M.rpow 10 (depoint / 10))
    (hgain : 0 < M.rpow 10 ((gt + 20) / 10))
    (hmono : StrictMonoOn M.log10 (Set.Ioi (0:ℚ))) :
    fomOfSimple M gt depoint freq e₁ ≠ fomOfSimple M gt depoint freq e₂ ∧
    ¬(fomOfSimple M gt depoint freq e₁ = gt ∧
      fomOfSimple M gt depoint freq e₂ = gt) := by
  have hx : 0 < M.rpow 10 (depoint / 10) * M.rpow 10 ((gt + 20) / 10) :=
    mul_pos hbeta hgain
  have hta₁ : (0:ℚ) < 2 * (30 + (3/10) * e₁) := by linarith
  have hta₂ : (0:ℚ) < 2 * (30 + (3/10) * e₂) := by linarith
  have harg₁ : 0 < (M.rpow 10 (depoint / 10) * M.rpow 10 ((gt + 20) / 10))
      / (2 * (30 + (3/10) * e₁)) := div_pos hx hta₁
  have harg₂ : 0 < (M.rpow 10 (depoint / 10) * M.rpow 10 ((gt + 20) / 10))
      / (2 * (30 + (3/10) * e₂)) := div_pos hx hta₂
  have hargs : (M.rpow 10 (depoint / 10) * M.rpow 10 ((gt + 20) / 10))
      / (2 * (30 + (3/10) * e₁))
      ≠ (M.rpow 10 (depoint / 10) * M.rpow 10 ((gt + 20) / 10))
      / (2 * (30 + (3/10) * e₂)) := by
    intro h
    rw [div_eq_div_iff (ne_of_gt hta₁) (ne_of_gt hta₂)] at h
    have := mul_left_cancel₀ (ne_of_gt hx) h
    apply hne
    linarith
  have hmain : fomOfSimple M gt depoint freq e₁
      ≠ fomOfSimple M gt depoint freq e₂ := by
    rw [fomOfSimple_eval M gt depoint freq e₁ hf he₁l he₁u hr0,
      fomOfSimple_eval M gt depoint freq e₂ hf he₂l he₂u hr0]
    intro h
    have h10 := mul_left_cancel₀ (by norm_num : (10:ℚ) ≠ 0) h
    exact hargs (hmono.injOn harg₁ harg₂ h10)
  exact ⟨hmain, fun ⟨ha, hb⟩ => hmain (ha.trans hb.symm)⟩

/-- Witness for claim C5: `gt_value = 20`, depointing loss `0.5` dB,
14 GHz, elevations 20° and 40°, with identity `log10` and constant-one
power primitives. -/
theorem simple_reception_fom_not_verbatim_witness :
    ¬((14:ℚ) < 10) ∧ (10:ℚ) ≤ 20 ∧ (20:ℚ) < 90 ∧ (10:ℚ) ≤ 40 ∧ (40:ℚ) < 90 ∧
    (20:ℚ) ≠ 40 ∧ primsId.rpow 10 0 = 1 ∧
    (fomOfSimple primsId 20 (1/2) 14 20 ≠ fomOfSimple primsId 20 (1/2) 14 40 ∧
     ¬(fomOfSimple primsId 20 (1/2) 14 20 = 20 ∧
       fomOfSimple primsId 20 (1/2) 14 40 = 20)) := by
  refine ⟨by norm_num, by norm_num, by norm_num, by norm_num, by norm_num,
    by norm_num, rfl, ?_⟩
  exact simple_reception_fom_not_verbatim primsId 20 (1/2) 14 20 40
    (by norm_num) (by norm_num) (by norm_num) (by norm_num) (by norm_num)
    (by norm_num) rfl (by norm_num [primsId]) (by norm_num [primsId])
    (fun a _ b _ h => h)

/-- Helper: on a cache miss, `get_cross_pol_discrimination` always
returns the computed 3-tuple shape. -/
theorem xpd_compute_shape (cfg : Config) (p? : Option ℚ) (s : SatState)
    (hmiss : ¬(s.cross_pol_discrimination ≠ none ∧ p? = s.p)) :
    ∃ x a b s', get_cross_pol_discrimination cfg p? s
      = (.computedTriple x a b, s') := by
  unfold get_cross_pol_discrimination
  rw [if_neg hmiss]
  exact ⟨_, _, _, _, rfl⟩

/-- Claim C10 (code behaviour): in every session state whose reference
probability `self.p` is set — as it is in any state where the
attenuation and XPD have been computed — `get_total_attenuation`
produces a `TypeError` instead of a total: its internal
`get_cross_pol_discrimination()` call passes `p = None`, which never
equals the numeric `self.p`, so the XPD cache branch is bypassed and
the freshly computed `(xpd, a_co, a_x)` 3-tuple flows into the scalar
expression `10 ** (0.1 * xpd)`.  The sum the source would assemble
(`a_fs + a_x + depointing + a_t`) — the link `a_tot` plus the
cross-polar term `10·log10(1 + 10^(0.1·xpd))` — is never returned. -/
theorem get_total_attenuation_type_error (cfg : Config) (s : SatState)
    (q : ℚ) (hp : s.p = some q) :
    get_total_attenuation cfg s = .error ("TypeError") := by
  unfold get_total_attenuation
  dsimp only
  obtain ⟨x, a, b, s', hx⟩ := xpd_compute_shape cfg none
    ({ s with a_fs := some (cfg.fsAtt (get_distance cfg) cfg.freq) })
    (by
      intro h
      have h2 : (none : Option ℚ) = some q := by
        rw [← hp]
        exact h.2
      exact Option.noConfusion h2)
  rw [hx]

/-- Witness for claim C10 at a concrete cached session state. -/
theorem get_total_attenuation_type_error_witness :
    satStateFomCached.p = some (1/1000) ∧
    get_total_attenuation cfgOverhead satStateFomCached
      = .error ("TypeError") :=
  ⟨rfl, get_total_attenuation_type_error cfgOverhead satStateFomCached
    (1/1000) rfl⟩

set_option maxRecDepth 8000 in
/-- Counterexample to claim C2: at a concrete worsening iteration
(previous delta `0`, current step `1/500`, secondary criterion not
firing) the availability search sets the next step to
`−(1/500)/10 = −1/5000`, whereas halving-and-flipping as the claim
states would give `−1/1000`. -/
theorem avail_step_not_halved :
    iterResSpeed (availIter cfgOverhead 0 0 aFlip) = some (-1/5000) ∧
    (-1/5000 : ℚ) ≠ -1 * (1/500) / 2 := by
  constructor
  · with_unfolding_all rfl
  · norm_num

/-- Claim C2 (amended): in a non-converged iteration with no boundary
reset, if the delta worsened (`delta_old < delta`) and the secondary
convergence criterion does not fire, the step becomes `−speed/10`
(sign flipped, magnitude divided by **10**, not halved); otherwise the
step grows by `×1.5`; in both branches the new step is added to `p`,
the old step and `p` are remembered and `delta_old` becomes the
current delta. -/
theorem avail_step_update (cfg : Config) (target relaxation : ℚ)
    (a : AvailState) (v : ℚ) (sat : SatState)
    (hsnr : get_snr cfg (some a.p) a.sat = .ok (v, sat))
    (hnc : ¬(|v - target| < relaxation))
    (hsec : a.delta_old < |v - target| →
      ¬(|a.p_old - a.p| < 1/1000 ∧ a.speed_old * a.speed < 1))
    (hlo : ¬(a.p + (if a.delta_old < |v - target| then -1 * a.speed / 10
        else a.speed * (3/2)) < 1/1000))
    (hhi : ¬(a.p + (if a.delta_old < |v - target| then -1 * a.speed / 10
        else a.speed * (3/2)) > 50)) :
    availIter cfg target relaxation a = .next
      { p := a.p + (if a.delta_old < |v - target| then -1 * a.speed / 10
          else a.speed * (3/2)),
        speed := (if a.delta_old < |v - target| then -1 * a.speed / 10
          else a.speed * (3/2)),
        speed_old := a.speed, delta_old := |v - target|, p_old := a.p,
        sat := sat, draws := a.draws } := by
  unfold availIter
  rw [hsnr]
  dsimp only
  rw [if_neg hnc]
  by_cases hw : a.delta_old < |v - target|
  · rw [if_pos hw] at hlo hhi
    rw [if_pos hw, if_neg (hsec hw)]
    unfold availBoundary availHighReset
    dsimp only
    rw [if_neg hlo, if_neg hhi, if_pos hw]
  · rw [if_neg hw] at hlo hhi
    rw [if_neg hw]
    unfold availBoundary availHighReset
    dsimp only
    rw [if_neg hlo, if_neg hhi, if_neg hw]

set_option maxRecDepth 8000 in
/-- Witness for the amended step-update theorem at the concrete
worsening state `aFlip`. -/
theorem avail_step_update_witness :
    get_snr cfgOverhead (some aFlip.p) aFlip.sat = .ok (c2v, c2sat) ∧
    ¬(|c2v - 0| < 0) ∧
    availIter cfgOverhead 0 0 aFlip = .next
      { p := aFlip.p + (if aFlip.delta_old < |c2v - 0| then -1 * aFlip.speed / 10
          else aFlip.speed * (3/2)),
        speed := (if aFlip.delta_old < |c2v - 0| then -1 * aFlip.speed / 10
          else aFlip.speed * (3/2)),
        speed_old := aFlip.speed, delta_old := |c2v - 0|, p_old := aFlip.p,
        sat := c2sat, draws := aFlip.draws } := by
  refine ⟨?_, ?_, ?_⟩
  · with_unfolding_all rfl
  · with_unfolding_all decide
  · exact avail_step_update cfgOverhead 0 0 aFlip c2v c2sat
      (by with_unfolding_all rfl) (by with_unfolding_all decide)
      (fun _ => by with_unfolding_all decide)
      (by with_unfolding_all decide) (by with_unfolding_all decide)

